import Mathlib

/-!
Verification of `src/aneurisk/filenames.py` (AneuriskDatabase).

The Python module is embedded shallowly:

* Python `int` values are `Int`; Python strings are `String` (the inputs the
  claims concern are ASCII, and `c.isdigit()` is embedded as `Char.isDigit`).
* `str.rjust(4, "0")` is `String.leftpad 4 '0'`; `str(n)` for an `Int` is
  `toString n` (both agree with Python on sign handling).
* `case_label.startswith("C")` is embedded list-wise as `pyStartsWith`
  (character-level comparison, which is what CPython does for ASCII).
* A `ValueError` raised by the module is an `Except.error` carrying a
  structured `ValidationError`; the two distinct "wrong format" message
  texts of the source are kept as distinct message strings so that claims
  about error identity can be settled faithfully.
* The argument of `_validate_case_label` has Python type `Union[str, int]`
  but the function also branches on "any other type"; the input is embedded
  as the inductive `CaseLabelInput` whose `otherInput` constructor stands
  for any value that is neither an `int` nor a `str` (such as `3.5`).
* `os.path.join` on an absolute first component followed by relative
  components that do not start with a separator is plain interleaving with
  `"/"`; it is embedded as `pathJoin`.  `_get_aneurisk_database_path`
  resolves the package location on disk; it is abstracted as the `root`
  argument of each path builder.
* `load_cases_data` reads three CSV files and joins them; the claims only
  concern the id-derivation and filtering logic, so the fully joined table
  is abstracted as a list of rows, each carrying its index label and an
  opaque payload.  `pandas` boolean-mask filtering on the index is
  `List.filter`; `index.str.strip("Cab").astype(int)` is `numericalId`.
-/

/-- Embeds `gen_case_label` (filenames.py line 17): `"C" + str(case_id).rjust(4, "0")`. -/
def gen_case_label (case_id : Int) : String :=
  "C" ++ (toString case_id).leftpad 4 '0'

/-- Embeds `_get_multiple_ia_cases` (filenames.py line 31): the dict
`{cid: [gen_case_label(cid) + "a", gen_case_label(cid) + "b"] for cid in [28, 57, 74, 88]}`,
as an association list with the same key order. -/
def multipleIACases : List (Int × List String) :=
  [28, 57, 74, 88].map (fun cid => (cid, [gen_case_label cid ++ "a", gen_case_label cid ++ "b"]))

/-- Embeds Python `s.startswith(p)`: the characters of `p` are a leading
segment of the characters of `s`. -/
def pyStartsWith (s p : String) : Bool :=
  p.toList.isPrefixOf s.toList

/-- Embeds `sum(c.isdigit() for c in case_label)` (filenames.py line 59):
the number of digit characters of the string. -/
def digitCount (s : String) : Nat :=
  (s.toList.filter Char.isDigit).length

/-- Embeds Python `int(...)` applied to a nonempty string of decimal digits. -/
def digitsToNat (l : List Char) : Nat :=
  l.foldl (fun a c => a * 10 + (c.toNat - 48)) 0

/-- Embeds `int("".join(d for d in case_label if d.isdigit()))`
(filenames.py line 64). -/
def extractCaseId (s : String) : Int :=
  ((digitsToNat (s.toList.filter Char.isDigit) : Nat) : Int)

/-- Embeds `[label for list_ in _get_multiple_ia_cases().values() for label in list_]`
(filenames.py lines 68-70): the flattened list of registered sub-labels. -/
def allSubLabels : List String :=
  (multipleIACases.map Prod.snd).flatten

/-- The `ValueError` message of the string branch (filenames.py lines 84-87). -/
def wrongStrMsg : String :=
  "Wrong label format. Should be: \x27C00__[a,b,..]\x27 where the underline is an integer digit sequence."

/-- The `ValueError` message of the final `else` branch (filenames.py lines 90-94),
reached both by integers outside [1,99] and by values that are neither `int` nor `str`. -/
def wrongTypeMsg : String :=
  "Wrong label format. Should be: \x27C00__[a,b,..]\x27 where the underline is an integer digit sequence or an integer in the interval [1,99]."

/-- A `ValueError` raised by `_validate_case_label`, kept structured: the
ambiguous-case error carries the case id and the registered sub-label choices
interpolated into its message (filenames.py lines 46-52 and 72-78); the
malformed errors carry their literal message text. -/
inductive ValidationError where
  | ambiguous (caseId : Int) (choices : List String)
  | malformed (msg : String)
deriving DecidableEq, Repr

deriving instance DecidableEq for Except

/-- The possible runtime types of the `case_label` argument of
`_validate_case_label`: an `int`, a `str`, or any other Python value
(`otherInput`, e.g. the float `3.5`). -/
inductive CaseLabelInput where
  | intInput (n : Int)
  | strInput (s : String)
  | otherInput
deriving DecidableEq, Repr

/-- Embeds `_validate_case_label` (filenames.py lines 41-94).  The three
branches mirror `type(case_label) is int and 0 < n < 100`, `type(case_label) is str`,
and the final `else`; the string branch mirrors the guard
`caseId > 0 and caseId < 100 and caseId in keys and not case_label in sub_labels`. -/
def _validate_case_label : CaseLabelInput → Except ValidationError String
  | .intInput n =>
      if 0 < n ∧ n < 100 then
        match List.lookup n multipleIACases with
        | some labels => .error (.ambiguous n labels)
        | none => .ok (gen_case_label n)
      else .error (.malformed wrongTypeMsg)
  | .strInput s =>
      if pyStartsWith s "C" = true ∧ digitCount s = 4 then
        if 0 < extractCaseId s ∧ extractCaseId s < 100 ∧
           (List.lookup (extractCaseId s) multipleIACases).isSome = true ∧
           ¬ s ∈ allSubLabels then
          .error (.ambiguous (extractCaseId s)
                     ((List.lookup (extractCaseId s) multipleIACases).getD []))
        else .ok s
      else .error (.malformed wrongStrMsg)
  | .otherInput => .error (.malformed wrongTypeMsg)

/-- Modelled from the spec: the canonical label the spec promises for an
in-range integer id, the letter `C` followed by the decimal digits of `n`
left-padded with the character `0` to exactly 4 digits. -/
def specCaseLabel (n : Int) : String :=
  "C" ++ String.mk (List.replicate (4 - (toString n).length) '0' ++ (toString n).toList)

/-- Embeds `os.path.join` for the call shapes of this module: an absolute
root followed by relative components, interleaved with the separator. -/
def pathJoin : List String → String
  | [] => ""
  | [p] => p
  | p :: ps => p ++ "/" ++ pathJoin ps

/-- Embeds `path_to_vascular_model_file` (filenames.py lines 96-106); `root`
abstracts `_get_aneurisk_database_path()`. -/
def path_to_vascular_model_file (root : String) (case_id : CaseLabelInput) :
    Except ValidationError String :=
  (_validate_case_label case_id).map (fun label =>
    pathJoin [root, "models", label, "surface", "model.vtp"])

/-- Embeds `path_to_model_centerline_file` (filenames.py lines 108-118). -/
def path_to_model_centerline_file (root : String) (case_id : CaseLabelInput) :
    Except ValidationError String :=
  (_validate_case_label case_id).map (fun label =>
    pathJoin [root, "models", label, "morphology", "centerlines.vtp"])

/-- Embeds `path_to_cfd_model_file` (filenames.py lines 120-130). -/
def path_to_cfd_model_file (root : String) (case_id : CaseLabelInput) :
    Except ValidationError String :=
  (_validate_case_label case_id).map (fun label =>
    pathJoin [root, "models", label, "surface", "model_cfd.stl"])

/-- Embeds `path_to_healthy_model_file` (filenames.py lines 132-142). -/
def path_to_healthy_model_file (root : String) (case_id : CaseLabelInput) :
    Except ValidationError String :=
  (_validate_case_label case_id).map (fun label =>
    pathJoin [root, "models", label, "surface", "model_healthy_vessel.vtp"])

/-- Embeds `path_to_aneurysm_file` (filenames.py lines 144-155). -/
def path_to_aneurysm_file (root : String) (case_id : CaseLabelInput) (mode : String) :
    Except ValidationError String :=
  (_validate_case_label case_id).map (fun label =>
    pathJoin [root, "models", label, "surface", "aneurysm_" ++ mode ++ ".vtp"])

/-- Embeds `path_to_hull_file` (filenames.py lines 157-168). -/
def path_to_hull_file (root : String) (case_id : CaseLabelInput) (mode : String) :
    Except ValidationError String :=
  (_validate_case_label case_id).map (fun label =>
    pathJoin [root, "models", label, "surface", "hull_" ++ mode ++ ".vtp"])

/-- Embeds `path_to_ostium_file` (filenames.py lines 170-181). -/
def path_to_ostium_file (root : String) (case_id : CaseLabelInput) (mode : String) :
    Except ValidationError String :=
  (_validate_case_label case_id).map (fun label =>
    pathJoin [root, "models", label, "surface", "ostium_" ++ mode ++ ".vtp"])

/-- One row of the fully joined cases table of `load_cases_data`: its index
label and an opaque payload standing for the remaining columns. -/
structure CaseRow where
  label : String
  payload : List String
deriving DecidableEq, Repr

/-- Embeds Python `s.strip("Cab")`: remove leading and trailing characters
belonging to the set `{C, a, b}`. -/
def stripCab (s : String) : String :=
  String.mk (((s.toList.dropWhile (fun c => ['C', 'a', 'b'].contains c)).reverse.dropWhile
    (fun c => ['C', 'a', 'b'].contains c)).reverse)

/-- Embeds `cases.index.str.strip("Cab").astype(int)` (filenames.py line 245)
for one index label (defined, like the pandas expression, on labels whose
stripped remainder is a digit string). -/
def numericalId (label : String) : Int :=
  ((digitsToNat (stripCab label).toList : Nat) : Int)

/-- Embeds Python `min` over a nonempty list (the empty case is unreachable
behind the truthiness guard of `load_cases_data`). -/
def pyMin : List Int → Int
  | [] => 0
  | x :: xs => xs.foldl min x

/-- Embeds Python `max` over a nonempty list. -/
def pyMax : List Int → Int
  | [] => 0
  | x :: xs => xs.foldl max x

/-- Embeds the selection logic of `load_cases_data` (filenames.py lines
183-272) over the already joined table `cases`.  `cases_ids : Option (List Int)`
embeds the `list=None` default (`none` is `None`, `some []` the empty list);
`between_ids : Option (Int × Int)` embeds the `tuple=None` default (a 2-tuple
is always truthy).  `if cases_ids:` is truthy exactly for `some` of a nonempty
list, hence the `some (i :: is)` pattern; `min(between_ids)`/`max(between_ids)`
are the min/max of the two tuple components. -/
def load_cases_data (cases : List CaseRow) (cases_ids : Option (List Int))
    (between_ids : Option (Int × Int)) : Except String (List CaseRow) :=
  match cases_ids with
  | some (i :: is) =>
      if pyMin (i :: is) < 1 ∨ 99 < pyMax (i :: is) then
        .error "Cases IDs should be between 1 and 99."
      else
        .ok (cases.filter (fun r => (i :: is).contains (numericalId r.label)))
  | _ =>
      match between_ids with
      | some p =>
          if min p.1 p.2 < 1 ∨ 99 < max p.1 p.2 then
            .error "Range between 1 and 99."
          else
            .ok (cases.filter (fun r =>
                   decide (min p.1 p.2 ≤ numericalId r.label) &&
                   decide (numericalId r.label ≤ max p.1 p.2)))
      | none => .ok cases

/-! Helper lemmas. -/

theorem foldl_min_le_init (is : List Int) (a : Int) : is.foldl min a ≤ a := by
  induction is generalizing a with
  | nil => exact le_refl a
  | cons b bs ih => exact le_trans (ih (min a b)) (min_le_left a b)

theorem foldl_min_le_mem (is : List Int) (a x : Int) (hx : x ∈ is) : is.foldl min a ≤ x := by
  induction is generalizing a with
  | nil => cases hx
  | cons b bs ih =>
      rcases List.mem_cons.mp hx with rfl | hmem
      · exact le_trans (foldl_min_le_init bs (min a x)) (min_le_right a x)
      · exact ih (min a b) hmem

theorem le_foldl_min (is : List Int) (a c : Int) (ha : c ≤ a) (h : ∀ x ∈ is, c ≤ x) :
    c ≤ is.foldl min a := by
  induction is generalizing a with
  | nil => exact ha
  | cons b bs ih =>
      exact ih (min a b) (le_min ha (h b (List.mem_cons_self b bs)))
        (fun x hx => h x (List.mem_cons_of_mem b hx))

theorem init_le_foldl_max (is : List Int) (a : Int) : a ≤ is.foldl max a := by
  induction is generalizing a with
  | nil => exact le_refl a
  | cons b bs ih => exact le_trans (le_max_left a b) (ih (max a b))

theorem mem_le_foldl_max (is : List Int) (a x : Int) (hx : x ∈ is) : x ≤ is.foldl max a := by
  induction is generalizing a with
  | nil => cases hx
  | cons b bs ih =>
      rcases List.mem_cons.mp hx with rfl | hmem
      · exact le_trans (le_max_right a x) (init_le_foldl_max bs (max a x))
      · exact ih (max a b) hmem

theorem foldl_max_le (is : List Int) (a c : Int) (ha : a ≤ c) (h : ∀ x ∈ is, x ≤ c) :
    is.foldl max a ≤ c := by
  induction is generalizing a with
  | nil => exact ha
  | cons b bs ih =>
      exact ih (max a b) (max_le ha (h b (List.mem_cons_self b bs)))
        (fun x hx => h x (List.mem_cons_of_mem b hx))

theorem pathJoin_split (a b c d e : String) :
    pathJoin [a, b, c, d, e] = pathJoin [a, b, c, d] ++ "/" ++ e := by
  apply String.ext
  simp [pathJoin, String.data_append, List.append_assoc]

/-! Claim theorems. -/

/-- Claim C1: for every multi-aneurysm case number n in {28, 57, 74, 88},
`_validate_case_label` rejects both the bare integer and the bare 4-digit
string label with an ambiguous-case error naming exactly the two registered
sub-labels, while both registered sub-labels validate to themselves. -/
theorem validate_multi_aneurysm_cases (n : Int) (h : n ∈ ([28, 57, 74, 88] : List Int)) :
    _validate_case_label (.intInput n) =
      .error (.ambiguous n [gen_case_label n ++ "a", gen_case_label n ++ "b"]) ∧
    _validate_case_label (.strInput (gen_case_label n)) =
      .error (.ambiguous n [gen_case_label n ++ "a", gen_case_label n ++ "b"]) ∧
    _validate_case_label (.strInput (gen_case_label n ++ "a")) = .ok (gen_case_label n ++ "a") ∧
    _validate_case_label (.strInput (gen_case_label n ++ "b")) = .ok (gen_case_label n ++ "b") := by
  simp only [List.mem_cons, List.not_mem_nil, or_false] at h
  rcases h with rfl | rfl | rfl | rfl <;> exact ⟨by decide, by decide, by decide, by decide⟩

/-- Witness for C1 at the concrete case number 28. -/
theorem validate_multi_aneurysm_cases_witness :
    _validate_case_label (.intInput 28) =
      .error (.ambiguous 28 [gen_case_label 28 ++ "a", gen_case_label 28 ++ "b"]) ∧
    _validate_case_label (.strInput (gen_case_label 28)) =
      .error (.ambiguous 28 [gen_case_label 28 ++ "a", gen_case_label 28 ++ "b"]) ∧
    _validate_case_label (.strInput (gen_case_label 28 ++ "a")) = .ok (gen_case_label 28 ++ "a") ∧
    _validate_case_label (.strInput (gen_case_label 28 ++ "b")) = .ok (gen_case_label 28 ++ "b") :=
  validate_multi_aneurysm_cases 28 (by decide)

/-- Claim C2: for every integer n in [1,99] outside {28, 57, 74, 88},
`_validate_case_label` succeeds and returns the letter C followed by n
zero-padded to 4 digits (`specCaseLabel` states that form in the words of
the spec). -/
theorem validate_int_in_range_canonical (n : Int) (h1 : 1 ≤ n) (h2 : n ≤ 99)
    (h3 : n ∉ ([28, 57, 74, 88] : List Int)) :
    _validate_case_label (.intInput n) = .ok (specCaseLabel n) := by
  simp only [List.mem_cons, List.not_mem_nil, or_false, not_or] at h3
  interval_cases n <;> first | rfl | omega

/-- Witness for C2 at the concrete ids 1 and 99. -/
theorem validate_int_in_range_canonical_witness :
    _validate_case_label (.intInput 1) = .ok (specCaseLabel 1) ∧
    _validate_case_label (.intInput 99) = .ok (specCaseLabel 99) :=
  ⟨validate_int_in_range_canonical 1 (by decide) (by decide) (by decide),
   validate_int_in_range_canonical 99 (by decide) (by decide) (by decide)⟩

/-- Claim C3: every string starting with C and containing exactly 4 digit
characters whose parsed value lies outside [1,99] passes validation
unchanged: the string branch has no independent range check. -/
theorem validate_string_out_of_range_passes (s : String)
    (hC : pyStartsWith s "C" = true) (hD : digitCount s = 4)
    (hR : extractCaseId s < 1 ∨ 99 < extractCaseId s) :
    _validate_case_label (.strInput s) = .ok s := by
  simp only [_validate_case_label]
  rw [if_pos ⟨hC, hD⟩, if_neg]
  rintro ⟨hgt, hlt, -, -⟩
  omega

/-- Witness for C3 at the concrete labels C0000 and C0100. -/
theorem validate_string_out_of_range_passes_witness :
    _validate_case_label (.strInput "C0000") = .ok "C0000" ∧
    _validate_case_label (.strInput "C0100") = .ok "C0100" :=
  ⟨validate_string_out_of_range_passes "C0000" (by decide) (by decide) (by decide),
   validate_string_out_of_range_passes "C0100" (by decide) (by decide) (by decide)⟩

/-- Counterexample to C4 as stated: the error raised for the out-of-range
integer 0 is identical (same constructor, same message text) to the error
raised for an input that is neither an int nor a str, so it is not an error
kind distinct from the one raised for wrong input types. -/
theorem out_of_range_error_not_distinct :
    _validate_case_label (.intInput 0) = .error (.malformed wrongTypeMsg) ∧
    _validate_case_label .otherInput = .error (.malformed wrongTypeMsg) :=
  ⟨rfl, rfl⟩

/-- Amended C4: every integer outside [1,99] fails with the generic
wrong-format ValueError, the very same error raised for inputs that are
neither int nor str; only the wrong-string-shape error message differs. -/
theorem validate_out_of_range_shared_error (n : Int) (h : n < 1 ∨ 99 < n) :
    _validate_case_label (.intInput n) = .error (.malformed wrongTypeMsg) ∧
    _validate_case_label .otherInput = .error (.malformed wrongTypeMsg) ∧
    wrongTypeMsg ≠ wrongStrMsg := by
  refine ⟨?_, rfl, by decide⟩
  simp only [_validate_case_label]
  rw [if_neg]
  rintro ⟨ha, hb⟩
  omega

/-- Witness for amended C4 at the concrete input 0. -/
theorem validate_out_of_range_shared_error_witness :
    _validate_case_label (.intInput 0) = .error (.malformed wrongTypeMsg) ∧
    _validate_case_label .otherInput = .error (.malformed wrongTypeMsg) ∧
    wrongTypeMsg ≠ wrongStrMsg :=
  validate_out_of_range_shared_error 0 (by decide)

/-- Claim C5: strings failing the shape test (start with C, exactly 4 digit
characters) fail with the malformed-label error, as does any input that is
neither int nor str; and no string passing the shape test is ever rejected
for shape, extra non-digit characters notwithstanding. -/
theorem validate_malformed_inputs (s : String)
    (h : ¬(pyStartsWith s "C" = true ∧ digitCount s = 4)) :
    _validate_case_label (.strInput s) = .error (.malformed wrongStrMsg) ∧
    _validate_case_label .otherInput = .error (.malformed wrongTypeMsg) ∧
    ∀ u : String, pyStartsWith u "C" = true → digitCount u = 4 →
      _validate_case_label (.strInput u) ≠ .error (.malformed wrongStrMsg) := by
  refine ⟨?_, rfl, ?_⟩
  · simp only [_validate_case_label]
    rw [if_neg h]
  · intro u hu1 hu2
    simp only [_validate_case_label]
    rw [if_pos ⟨hu1, hu2⟩]
    split
    · intro heq
      injection heq with h2
      cases h2
    · intro heq
      cases heq

/-- Witness for C5 at the concrete inputs X0001, C001 (shape failures), a
non-int non-str input, and C0001x (shape-passing with a trailing letter). -/
theorem validate_malformed_inputs_witness :
    _validate_case_label (.strInput "X0001") = .error (.malformed wrongStrMsg) ∧
    _validate_case_label (.strInput "C001") = .error (.malformed wrongStrMsg) ∧
    _validate_case_label .otherInput = .error (.malformed wrongTypeMsg) ∧
    _validate_case_label (.strInput "C0001x") ≠ .error (.malformed wrongStrMsg) := by
  have h1 := validate_malformed_inputs "X0001" (by decide)
  have h2 := validate_malformed_inputs "C001" (by decide)
  exact ⟨h1.1, h2.1, h1.2.1, h1.2.2 "C0001x" (by decide) (by decide)⟩

/-- Claim C10: `_validate_case_label` is idempotent: the canonical label
produced for an in-range non-multi-aneurysm integer re-validates to itself,
and on strings the function is the identity on everything it accepts. -/
theorem validate_idempotent :
    (∀ n : Int, 1 ≤ n → n ≤ 99 → n ∉ ([28, 57, 74, 88] : List Int) →
       _validate_case_label (.intInput n) = .ok (gen_case_label n) ∧
       _validate_case_label (.strInput (gen_case_label n)) = .ok (gen_case_label n)) ∧
    (∀ s t : String, _validate_case_label (.strInput s) = .ok t →
       t = s ∧ _validate_case_label (.strInput t) = .ok t) := by
  constructor
  · intro n h1 h2 h3
    simp only [List.mem_cons, List.not_mem_nil, or_false, not_or] at h3
    interval_cases n <;> first | exact ⟨by decide, by decide⟩ | omega
  · intro s t h
    by_cases h1 : pyStartsWith s "C" = true ∧ digitCount s = 4
    · by_cases h2 : 0 < extractCaseId s ∧ extractCaseId s < 100 ∧
          (List.lookup (extractCaseId s) multipleIACases).isSome = true ∧ ¬ s ∈ allSubLabels
      · have herr : _validate_case_label (.strInput s) = .error (.ambiguous (extractCaseId s)
            ((List.lookup (extractCaseId s) multipleIACases).getD [])) := by
          simp only [_validate_case_label]
          rw [if_pos h1, if_pos h2]
        rw [herr] at h
        cases h
      · have hok : _validate_case_label (.strInput s) = .ok s := by
          simp only [_validate_case_label]
          rw [if_pos h1, if_neg h2]
        rw [hok] at h
        injection h with hst
        subst hst
        exact ⟨rfl, hok⟩
    · have herr : _validate_case_label (.strInput s) = .error (.malformed wrongStrMsg) := by
        simp only [_validate_case_label]
        rw [if_neg h1]
      rw [herr] at h
      cases h

/-- Witness for C10: re-validating the canonical label of id 5, and
re-validating the accepted label C0100. -/
theorem validate_idempotent_witness :
    (_validate_case_label (.intInput 5) = .ok (gen_case_label 5) ∧
     _validate_case_label (.strInput (gen_case_label 5)) = .ok (gen_case_label 5)) ∧
    ("C0100" = "C0100" ∧ _validate_case_label (.strInput "C0100") = .ok "C0100") :=
  ⟨validate_idempotent.1 5 (by decide) (by decide) (by decide),
   validate_idempotent.2 "C0100" "C0100" (by decide)⟩

/-- Counterexample to C6 as stated: with a nonempty in-range cases_ids and a
between_ids range extending outside [1,99], `load_cases_data` raises no
error and returns a table — cases_ids takes precedence and between_ids is
never validated, so the failure the claim requires does not happen. -/
theorem load_cases_between_not_validated :
    load_cases_data [⟨"C0005", []⟩] (some [5]) (some (1, 150)) = .ok [⟨"C0005", []⟩] := by
  decide

/-- Amended C6: `load_cases_data` fails with the cases-ids ValueError
whenever cases_ids is nonempty and contains a value outside [1,99]
(regardless of between_ids), and — when cases_ids is None or the empty
list — fails with the range ValueError whenever the between_ids bounds
extend outside [1,99]; on failure no table is returned. -/
theorem load_cases_range_validation (rows : List CaseRow) (ids : List Int) (p : Int × Int) :
    ((∃ x ∈ ids, x < 1 ∨ 99 < x) → ∀ ob : Option (Int × Int),
       load_cases_data rows (some ids) ob = .error "Cases IDs should be between 1 and 99.") ∧
    ((min p.1 p.2 < 1 ∨ 99 < max p.1 p.2) →
       load_cases_data rows none (some p) = .error "Range between 1 and 99." ∧
       load_cases_data rows (some []) (some p) = .error "Range between 1 and 99.") := by
  constructor
  · rintro ⟨x, hx, hout⟩ ob
    cases ids with
    | nil => cases hx
    | cons i is =>
      have hmin : pyMin (i :: is) ≤ x := by
        simp only [pyMin]
        rcases List.mem_cons.mp hx with rfl | hmem
        · exact foldl_min_le_init is x
        · exact foldl_min_le_mem is i x hmem
      have hmax : x ≤ pyMax (i :: is) := by
        simp only [pyMax]
        rcases List.mem_cons.mp hx with rfl | hmem
        · exact init_le_foldl_max is x
        · exact mem_le_foldl_max is i x hmem
      simp only [load_cases_data]
      rw [if_pos (by omega)]
  · intro hbad
    constructor
    · simp only [load_cases_data]
      rw [if_pos hbad]
    · simp only [load_cases_data]
      rw [if_pos hbad]

/-- Witness for amended C6: ids containing 0 fail, and the range (1,150)
fails both with cases_ids absent and with cases_ids the empty list. -/
theorem load_cases_range_validation_witness :
    load_cases_data [] (some [0]) none = .error "Cases IDs should be between 1 and 99." ∧
    load_cases_data [] none (some (1, 150)) = .error "Range between 1 and 99." ∧
    load_cases_data [] (some []) (some (1, 150)) = .error "Range between 1 and 99." := by
  have h := load_cases_range_validation [] [0] (1, 150)
  have h1 := h.1 ⟨0, by decide, by decide⟩ none
  have h2 := h.2 (by decide)
  exact ⟨h1, h2.1, h2.2⟩

/-- Claim C7: when both selectors are passed, a nonempty cases_ids takes
precedence: the result is identical to the call without between_ids, and —
when the ids are in range — equals the membership filter on the derived
numeric id; between_ids neither filters nor gets validated. -/
theorem load_cases_ids_precedence (rows : List CaseRow) (ids : List Int) (p : Int × Int)
    (h : ids ≠ []) :
    load_cases_data rows (some ids) (some p) = load_cases_data rows (some ids) none ∧
    ((∀ x ∈ ids, 1 ≤ x ∧ x ≤ 99) →
      load_cases_data rows (some ids) (some p) =
        .ok (rows.filter (fun r => ids.contains (numericalId r.label)))) := by
  cases ids with
  | nil => exact absurd rfl h
  | cons i is =>
    refine ⟨rfl, fun hall => ?_⟩
    have hmin : (1 : Int) ≤ pyMin (i :: is) := by
      simp only [pyMin]
      exact le_foldl_min is i 1 (hall i (List.mem_cons_self i is)).1
        (fun x hx => (hall x (List.mem_cons_of_mem i hx)).1)
    have hmax : pyMax (i :: is) ≤ 99 := by
      simp only [pyMax]
      exact foldl_max_le is i 99 (hall i (List.mem_cons_self i is)).2
        (fun x hx => (hall x (List.mem_cons_of_mem i hx)).2)
    simp only [load_cases_data]
    rw [if_neg (by omega)]

/-- Witness for C7 at one row, ids [1] and the range (1,150). -/
theorem load_cases_ids_precedence_witness :
    load_cases_data [⟨"C0001", []⟩] (some [1]) (some (1, 150)) =
      load_cases_data [⟨"C0001", []⟩] (some [1]) none ∧
    load_cases_data [⟨"C0001", []⟩] (some [1]) (some (1, 150)) =
      .ok ([⟨"C0001", []⟩].filter (fun r => [1].contains (numericalId r.label))) := by
  have h := load_cases_ids_precedence [⟨"C0001", []⟩] [1] (1, 150) (by decide)
  exact ⟨h.1, h.2 (by decide)⟩

/-- Claim C9: because `if cases_ids:` tests Python truthiness, an empty
cases_ids list behaves exactly like None: with a between_ids range the range
branch applies (and is validated), and with no range the full table is
returned — an empty ids selection never filters to an empty result. -/
theorem load_cases_empty_ids_truthiness (rows : List CaseRow) (p : Int × Int) :
    load_cases_data rows (some []) (some p) = load_cases_data rows none (some p) ∧
    load_cases_data rows (some []) none = .ok rows :=
  ⟨rfl, rfl⟩

/-- Claim C8: every path builder is pure and deterministic, and for the
mode-parameterized builders two calls differing only in mode return paths
sharing the identical directory prefix up to `surface`, differing only in
the final filename segment. -/
theorem path_builders_pure (root : String) (c : CaseLabelInput) (m m2 : String) :
    path_to_vascular_model_file root c = path_to_vascular_model_file root c ∧
    path_to_model_centerline_file root c = path_to_model_centerline_file root c ∧
    path_to_cfd_model_file root c = path_to_cfd_model_file root c ∧
    path_to_healthy_model_file root c = path_to_healthy_model_file root c ∧
    path_to_aneurysm_file root c m = path_to_aneurysm_file root c m ∧
    path_to_hull_file root c m = path_to_hull_file root c m ∧
    path_to_ostium_file root c m = path_to_ostium_file root c m ∧
    ∀ label, _validate_case_label c = .ok label →
      path_to_aneurysm_file root c m =
        .ok (pathJoin [root, "models", label, "surface"] ++ "/" ++ ("aneurysm_" ++ m ++ ".vtp")) ∧
      path_to_aneurysm_file root c m2 =
        .ok (pathJoin [root, "models", label, "surface"] ++ "/" ++ ("aneurysm_" ++ m2 ++ ".vtp")) ∧
      path_to_hull_file root c m =
        .ok (pathJoin [root, "models", label, "surface"] ++ "/" ++ ("hull_" ++ m ++ ".vtp")) ∧
      path_to_hull_file root c m2 =
        .ok (pathJoin [root, "models", label, "surface"] ++ "/" ++ ("hull_" ++ m2 ++ ".vtp")) ∧
      path_to_ostium_file root c m =
        .ok (pathJoin [root, "models", label, "surface"] ++ "/" ++ ("ostium_" ++ m ++ ".vtp")) ∧
      path_to_ostium_file root c m2 =
        .ok (pathJoin [root, "models", label, "surface"] ++ "/" ++ ("ostium_" ++ m2 ++ ".vtp")) := by
  refine ⟨rfl, rfl, rfl, rfl, rfl, rfl, rfl, ?_⟩
  intro label hl
  simp only [path_to_aneurysm_file, path_to_hull_file, path_to_ostium_file, hl, Except.map,
    pathJoin_split]
  exact ⟨trivial, trivial, trivial, trivial, trivial, trivial⟩

/-- Witness for C8: the aneurysm, hull and ostium builders at root `/r`,
case id 1 and the two modes `u` and `v`. -/
theorem path_builders_pure_witness :
    path_to_aneurysm_file "/r" (.intInput 1) "u" =
      .ok (pathJoin ["/r", "models", "C0001", "surface"] ++ "/" ++ ("aneurysm_" ++ "u" ++ ".vtp")) ∧
    path_to_aneurysm_file "/r" (.intInput 1) "v" =
      .ok (pathJoin ["/r", "models", "C0001", "surface"] ++ "/" ++ ("aneurysm_" ++ "v" ++ ".vtp")) ∧
    path_to_hull_file "/r" (.intInput 1) "u" =
      .ok (pathJoin ["/r", "models", "C0001", "surface"] ++ "/" ++ ("hull_" ++ "u" ++ ".vtp")) ∧
    path_to_hull_file "/r" (.intInput 1) "v" =
      .ok (pathJoin ["/r", "models", "C0001", "surface"] ++ "/" ++ ("hull_" ++ "v" ++ ".vtp")) ∧
    path_to_ostium_file "/r" (.intInput 1) "u" =
      .ok (pathJoin ["/r", "models", "C0001", "surface"] ++ "/" ++ ("ostium_" ++ "u" ++ ".vtp")) ∧
    path_to_ostium_file "/r" (.intInput 1) "v" =
      .ok (pathJoin ["/r", "models", "C0001", "surface"] ++ "/" ++ ("ostium_" ++ "v" ++ ".vtp")) :=
  (path_builders_pure "/r" (.intInput 1) "u" "v").2.2.2.2.2.2.2 "C0001" (by decide)
